import Mathlib

/-!
Verification development for the nc-news HTTP API: a shallow embedding of
the route wiring (`src/app.js`), the error-normalization middleware chain
(`src/controllers/error.controllers.js`), and the article/comment
controllers (`src/controllers/articles.controllers.js`), together with a
model of the data-store layer (`models/articles.models.js`, not part of
the sources at hand; its behaviour is modelled from the specification).
-/

namespace NcNews

/-- A raised failure object.  A failure shaped by the application carries
`status` and `msg`; a failure raised by the PostgreSQL driver instead
carries a SQLSTATE `code` and a human-readable `detail`.  Absent fields
are `none` (JS `undefined`). -/
structure ErrObj where
  status : Option Nat
  msg : Option String
  code : Option String
  detail : Option String
deriving DecidableEq, Repr

/-- JS truthiness of a possibly-absent number: `undefined` and `0` are falsy. -/
def truthyNat : Option Nat → Bool
  | none => false
  | some n => n != 0

/-- JS truthiness of a possibly-absent string: `undefined` and `""` are falsy. -/
def truthyStr : Option String → Bool
  | none => false
  | some s => s != ""

/-- `customErrorMiddleware` (src/controllers/error.controllers.js):
destructures `{status, msg}` from the error and, when both are truthy,
responds with exactly that status and message; otherwise calls `next(err)`
(modelled as `none`). -/
def customErrorMiddleware (err : ErrObj) : Option (Nat × String) :=
  if truthyNat err.status && truthyStr err.msg then
    some (err.status.getD 0, err.msg.getD "")
  else none

/-- `handlePsqlErrorsMiddleware` (src/controllers/error.controllers.js):
responds 400 "Invalid input" when `err.code === "22P02"`, otherwise calls
`next(err)`. -/
def handlePsqlErrorsMiddleware (err : ErrObj) : Option (Nat × String) :=
  if err.code == some "22P02" then some (400, "Invalid input")
  else none

/-- The ordered chain of error middleware exactly as mounted in src/app.js
(`app.use(customErrorMiddleware); app.use(handlePsqlErrorsMiddleware);`).
First match wins. -/
def errorChain : List (ErrObj → Option (Nat × String)) :=
  [customErrorMiddleware, handlePsqlErrorsMiddleware]

/-- Run an error through a middleware chain: each stage may respond and
short-circuit; otherwise the failure falls through, and past the last
stage it is unhandled (`none` — Express's default handler). -/
def runChain : List (ErrObj → Option (Nat × String)) → ErrObj → Option (Nat × String)
  | [], _ => none
  | f :: fs, e =>
    match f e with
    | some r => some r
    | none => runChain fs e

/-- `badUrlHandling` (src/controllers/error.controllers.js): the
`app.all("/*", ...)` fallback for unmatched routes. -/
def badUrlHandling : Nat × String := (404, "Invalid URL")

/- ## Data model (rows as the store serves them) -/

structure Article where
  article_id : Nat
  title : String
  topic : String
  author : String
  body : String
  created_at : Nat
  votes : Int
  article_img_url : String
deriving DecidableEq, Repr

structure Comment where
  comment_id : Nat
  body : String
  article_id : Nat
  author : String
  votes : Int
  created_at : Nat
deriving DecidableEq, Repr

structure DB where
  articles : List Article
  comments : List Comment
  users : List String
deriving DecidableEq, Repr

/-- PostgreSQL's `integer` upper bound: identifiers beyond it raise a
numeric-out-of-range failure in the store. -/
def maxInt : Nat := 2147483647

/-- How the store reads a text parameter bound into an `integer` column
position: non-numeric text is an invalid text representation (SQLSTATE
22P02), numeric text beyond the integer range is out of range. -/
inductive StoreIdResult where
  | invalidText
  | outOfRange
  | ok (n : Nat)
deriving DecidableEq, Repr

/-- Decimal-digit parse of a character list, accumulator style. -/
def parseDigitsAux : List Char → Nat → Option Nat
  | [], acc => some acc
  | c :: cs, acc =>
    if '0' ≤ c ∧ c ≤ '9' then parseDigitsAux cs (acc * 10 + (c.toNat - '0'.toNat))
    else none

/-- The numeric reading of an identifier token: `some n` exactly when the
token is a non-empty string of decimal digits. -/
def strToNat (s : String) : Option Nat :=
  match s.data with
  | [] => none
  | c :: cs => parseDigitsAux (c :: cs) 0

def parseStoreInt (s : String) : StoreIdResult :=
  match strToNat s with
  | none => .invalidText
  | some n => if maxInt < n then .outOfRange else .ok n

/-- The store's invalid-text-representation failure: a driver error with a
SQLSTATE code and no application-shaped `status`/`msg`. -/
def pgInvalidTextErr : ErrObj := ⟨none, none, some "22P02", none⟩

/-- The store's foreign-key-violation detail line for a missing article. -/
def fkDetailArticle (n : Nat) : String :=
  "Key (article_id)=(" ++ toString n ++ ") is not present in table \"articles\"."

/-- The store's foreign-key-violation detail line for a missing author. -/
def fkDetailAuthor (u : String) : String :=
  "Key (author)=(" ++ u ++ ") is not present in table \"users\"."

/-- A raw foreign-key violation raised by the store (SQLSTATE 23503):
carries only driver fields, no application `status`/`msg`. -/
def pgFkErr (detail : String) : ErrObj := ⟨none, none, some "23503", some detail⟩

/-- Shaped error signalled by the existence resolver when the identifier
is numeric but beyond the store's integer range. -/
def outOfRangeErr : ErrObj :=
  ⟨some 400, some "Out of range for type integer - choose a smaller number", none, none⟩

/-- Shaped error for a well-formed article id matching no row. -/
def articleNotFoundErr : ErrObj := ⟨some 404, some "Article ID does not exist", none, none⟩

/-- Shaped error for a missing/incomplete comment payload. -/
def malformedBodyErr : ErrObj :=
  ⟨some 400, some "Malformed body/missing required fields", none, none⟩

/-- Shaped error for a sort key outside the allow-list. -/
def invalidSortErr : ErrObj := ⟨some 400, some "Invalid sort by query", none, none⟩

/-- Outcome of a model-layer call: the settled promise, the database after
the call, and how many queries were issued to the store. -/
structure ModelOut (α : Type) where
  result : Except ErrObj α
  db : DB
  storeAccesses : Nat
deriving Repr

/- ## Model layer (`models/articles.models.js`) -/

/-- Modelled from the spec: `fetchArticlesById` of the model layer (the
Existence Resolver, section 4.3) is not among the sources at hand.  Per
the spec it performs a store lookup for the given identifier: a
non-numeric identifier makes the store raise its invalid-text failure,
a numeric identifier beyond the store's integer range signals the shaped
`OutOfRange` error (400), zero matching rows signal the shaped `NotFound`
error ("Article ID does not exist", 404), and otherwise the row is
returned.  Exactly one store query is issued in every case. -/
def fetchArticlesById (article_id : String) (db : DB) : ModelOut Article :=
  match parseStoreInt article_id with
  | .invalidText => ⟨.error pgInvalidTextErr, db, 1⟩
  | .outOfRange => ⟨.error outOfRangeErr, db, 1⟩
  | .ok n =>
    match db.articles.find? (fun a => a.article_id == n) with
    | none => ⟨.error articleNotFoundErr, db, 1⟩
    | some a => ⟨.ok a, db, 1⟩

/-- Insert preserving a ≤-style order given as a Bool relation. -/
def insertLe {α : Type} (le : α → α → Bool) (x : α) : List α → List α
  | [] => [x]
  | y :: ys => if le x y then x :: y :: ys else y :: insertLe le x ys

/-- Insertion sort by a Bool relation (ascending). -/
def sortByLe {α : Type} (le : α → α → Bool) : List α → List α
  | [] => []
  | x :: xs => insertLe le x (sortByLe le xs)

/-- Modelled from the spec: `fetchCommentsByArticleId` of the model layer
is not among the sources at hand.  Per the spec it reads the comments
whose `article_id` equals the given identifier, newest first (`created_at`
descending); an empty sequence is a valid result.  Identifier parsing
failures are as in `fetchArticlesById`. -/
def fetchCommentsByArticleId (article_id : String) (db : DB) : ModelOut (List Comment) :=
  match parseStoreInt article_id with
  | .invalidText => ⟨.error pgInvalidTextErr, db, 1⟩
  | .outOfRange => ⟨.error outOfRangeErr, db, 1⟩
  | .ok n =>
    let rows := db.comments.filter (fun c => c.article_id == n)
    ⟨.ok (sortByLe (fun c₁ c₂ => c₁.created_at ≤ c₂.created_at) rows).reverse, db, 1⟩

/-- Modelled from the spec: `insertCommentByArticleId` of the model layer
is not among the sources at hand.  Per the spec (section 4.5) it requires
both an author reference and a body and signals the shaped
`MalformedBody` error before any store access when either is missing;
otherwise it issues the insert, and the store raises its own failures: an
invalid-text or out-of-range identifier as above, and a raw foreign-key
violation (SQLSTATE 23503, with the store's detail line) when the article
or the author reference matches no row.  On success the new row is
returned with votes 0 and a generated id and timestamp. -/
def insertCommentByArticleId (article_id : String) (body username : Option String)
    (db : DB) : ModelOut Comment :=
  if body.isNone || username.isNone then ⟨.error malformedBodyErr, db, 0⟩
  else
    match parseStoreInt article_id with
    | .invalidText => ⟨.error pgInvalidTextErr, db, 1⟩
    | .outOfRange => ⟨.error outOfRangeErr, db, 1⟩
    | .ok n =>
      if db.articles.all (fun a => a.article_id != n) then
        ⟨.error (pgFkErr (fkDetailArticle n)), db, 1⟩
      else if db.users.all (fun u => u != username.getD "") then
        ⟨.error (pgFkErr (fkDetailAuthor (username.getD ""))), db, 1⟩
      else
        let c : Comment :=
          ⟨((db.comments.map (fun c => c.comment_id)).foldr Nat.max 0) + 1,
            body.getD "", n, username.getD "", 0, 0⟩
        ⟨.ok c, ⟨db.articles, db.comments ++ [c], db.users⟩, 1⟩

/-- The fixed allow-list of sortable columns. -/
def allowedSortBys : List String :=
  ["author", "title", "article_id", "topic", "created_at", "votes", "comment_count"]

/-- The derived comment count of an article: recomputed from the live
comment set by the aggregating join, never stored. -/
def commentCount (db : DB) (a : Article) : Nat :=
  (db.comments.filter (fun c => c.article_id == a.article_id)).length

/-- Ascending comparison of two article rows under a named sort column
(`created_at` for any unrecognized name, unreachable past the allow-list
check). -/
def colLe (db : DB) (col : String) (a b : Article) : Bool :=
  if col == "author" then compare a.author b.author != .gt
  else if col == "title" then compare a.title b.title != .gt
  else if col == "article_id" then a.article_id ≤ b.article_id
  else if col == "topic" then compare a.topic b.topic != .gt
  else if col == "votes" then a.votes ≤ b.votes
  else if col == "comment_count" then commentCount db a ≤ commentCount db b
  else a.created_at ≤ b.created_at

/-- Modelled from the spec: `fetchAllArticles` of the model layer (the
Query Composer, section 4.2) is not among the sources at hand.  Per the
spec the sort key defaults to `created_at` and is checked against the
fixed allow-list before any store access, signalling the shaped
`InvalidSortColumn` error ("Invalid sort by query") on failure; the topic
filter applies only when supplied; and the order token defaults to
descending ("desc"). -/
def fetchAllArticles (topic sortBy order : Option String) (db : DB) :
    ModelOut (List Article) :=
  let sortCol := sortBy.getD "created_at"
  if !(allowedSortBys.contains sortCol) then ⟨.error invalidSortErr, db, 0⟩
  else
    let filtered :=
      match topic with
      | none => db.articles
      | some t => db.articles.filter (fun a => a.topic == t)
    let asc := sortByLe (colLe db sortCol) filtered
    ⟨.ok (if order.getD "desc" == "asc" then asc else asc.reverse), db, 1⟩

/- ## Controllers (`src/controllers/articles.controllers.js`) -/

/-- The response written to the client. -/
inductive Response where
  | okArticle (status : Nat) (a : Article)
  | okArticles (status : Nat) (as : List Article)
  | okComments (status : Nat) (cs : List Comment)
  | okComment (status : Nat) (c : Comment)
  | err (status : Nat) (msg : String)
  | unhandled (e : ErrObj)
deriving DecidableEq, Repr

/-- A controller's `.catch(next)` hands the failure to the error-middleware
chain mounted in src/app.js; a failure no stage recognizes reaches
Express's default handler (`unhandled`). -/
def handleError (e : ErrObj) : Response :=
  match runChain errorChain e with
  | some (s, m) => .err s m
  | none => .unhandled e

/-- `getArticlesById` (src/controllers/articles.controllers.js): passes the
raw path identifier straight to `fetchArticlesById` and sends the row with
200, catching any failure into the error chain.  The second component
counts the store queries issued while serving the request. -/
def getArticlesById (article_id : String) (db : DB) : Response × Nat :=
  let out := fetchArticlesById article_id db
  match out.result with
  | .ok a => (.okArticle 200 a, out.storeAccesses)
  | .error e => (handleError e, out.storeAccesses)

/-- `getAllArticles` (src/controllers/articles.controllers.js): reads the
optional `topic`, `sort_by` and `order` query fields and forwards them to
`fetchAllArticles`. -/
def getAllArticles (topic sortBy order : Option String) (db : DB) : Response × Nat :=
  let out := fetchAllArticles topic sortBy order db
  match out.result with
  | .ok as => (.okArticles 200 as, out.storeAccesses)
  | .error e => (handleError e, out.storeAccesses)

/-- `getCommentsByArticleId` (src/controllers/articles.controllers.js):
first resolves the parent article via `fetchArticlesById`; only on its
success are the comments fetched and sent with 200.  Either failure goes
to the error chain. -/
def getCommentsByArticleId (article_id : String) (db : DB) : Response × Nat :=
  let out₁ := fetchArticlesById article_id db
  match out₁.result with
  | .error e => (handleError e, out₁.storeAccesses)
  | .ok _ =>
    let out₂ := fetchCommentsByArticleId article_id db
    match out₂.result with
    | .ok cs => (.okComments 200 cs, out₁.storeAccesses + out₂.storeAccesses)
    | .error e => (handleError e, out₁.storeAccesses + out₂.storeAccesses)

/-- The parsed JSON request body of a comment insertion; each field is
`none` when absent (JS `undefined`).  An absent payload parses to an empty
object, so both fields read as `undefined`. -/
structure CommentReqBody where
  username : Option String
  body : Option String
deriving DecidableEq, Repr

def reqUsername : Option CommentReqBody → Option String
  | none => none
  | some r => r.username

def reqBodyField : Option CommentReqBody → Option String
  | none => none
  | some r => r.body

/-- `postCommentByArticleId` (src/controllers/articles.controllers.js):
destructures `{body, username}` from the request body and forwards them to
`insertCommentByArticleId`; 201 with the created comment on success.
Returns the response, the database after the request, and the number of
store queries issued. -/
def postCommentByArticleId (article_id : String) (reqBody : Option CommentReqBody)
    (db : DB) : Response × DB × Nat :=
  let out := insertCommentByArticleId article_id (reqBodyField reqBody)
    (reqUsername reqBody) db
  match out.result with
  | .ok c => (.okComment 201 c, out.db, out.storeAccesses)
  | .error e => (handleError e, out.db, out.storeAccesses)

/- ## Route wiring (src/app.js) -/

inductive Method where
  | get
  | post
  | patch
  | delete
deriving DecidableEq, Repr, BEq

/-- A mounted route: its method and its path pattern, one string per
segment, where a segment starting with ":" is a parameter matching any
value. -/
structure Route where
  method : Method
  pattern : List String
deriving DecidableEq, Repr, BEq

/-- The complete list of routes mounted in src/app.js, in order:
`GET /api/topics`, `GET /api/articles`, `GET /api/articles/:article_id`,
`GET /api/articles/:article_id/comments`, and
`POST /api/articles/:article_id/comments`.  No other route is wired. -/
def wiredRoutes : List Route :=
  [⟨.get, ["api", "topics"]⟩,
   ⟨.get, ["api", "articles"]⟩,
   ⟨.get, ["api", "articles", ":article_id"]⟩,
   ⟨.get, ["api", "articles", ":article_id", "comments"]⟩,
   ⟨.post, ["api", "articles", ":article_id", "comments"]⟩]

def segMatches (pat seg : String) : Bool :=
  pat.startsWith ":" || pat == seg

def patternMatches : List String → List String → Bool
  | [], [] => true
  | p :: ps, s :: ss => segMatches p s && patternMatches ps ss
  | _, _ => false

/-- Express route dispatch over the mounted routes: the first route whose
method and pattern match wins; a request matching none falls through past
the (error-only) middleware to `app.all("/*", badUrlHandling)`. -/
def dispatch (m : Method) (path : List String) : Option Route :=
  wiredRoutes.find? (fun r => r.method == m && patternMatches r.pattern path)

/- ## A sample database mirroring the seeded test data's shape -/

def articleOne : Article :=
  ⟨1, "Living in the shadow of a great man", "mitch", "butter_bridge",
    "I find this existence challenging", 100, 100, "img1"⟩

def articleTwo : Article :=
  ⟨2, "Sony Vaio; or, The Laptop", "mitch", "icellusedkars",
    "Call me Mitchell.", 90, 0, "img2"⟩

def articleFive : Article :=
  ⟨5, "UNCOVERED: catspiracy to bring down democracy", "cats", "rogersop",
    "Bastet walks amongst us", 80, 0, "img5"⟩

def commentOnOne : Comment :=
  ⟨2, "The beautiful thing about treasure is that it exists.", 1,
    "butter_bridge", 14, 50⟩

def sampleDB : DB :=
  ⟨[articleOne, articleTwo, articleFive], [commentOnOne],
   ["butter_bridge", "icellusedkars", "rogersop"]⟩

/- ## Theorems -/

/-- Claim C1: the spec's endpoint surface requires `PATCH /api/articles/:id`
and `DELETE /api/comments/:id` to reach their handlers (200 / 204), but
src/app.js mounts no route for either method, so both requests fall
through to the unmatched-route fallback and answer 404 "Invalid URL" —
contradicting the repository's own tests, which expect 200 and 204. -/
theorem patch_and_delete_routes_unwired :
    dispatch .patch ["api", "articles", "5"] = none ∧
    dispatch .delete ["api", "comments", "5"] = none ∧
    badUrlHandling = (404, "Invalid URL") :=
  ⟨rfl, rfl, rfl⟩

/-- Claim C2: a store-raised foreign-key violation (SQLSTATE 23503, e.g.
inserting a comment against a missing article or from a missing author)
carries no application `status`/`msg`, so the first chain stage forwards
it, and the store-error stage recognizes only 22P02 — the failure falls
through both stages unclassified instead of producing the claimed 404
with the store's detail message (which the repository's own tests
expect). -/
theorem fk_violation_forwarded_unclassified :
    (postCommentByArticleId "5432" (some ⟨some "butter_bridge", some "hi"⟩) sampleDB).1 =
      .unhandled (pgFkErr (fkDetailArticle 5432)) ∧
    (postCommentByArticleId "5" (some ⟨some "ghost", some "hi"⟩) sampleDB).1 =
      .unhandled (pgFkErr (fkDetailAuthor "ghost")) ∧
    runChain errorChain (pgFkErr (fkDetailArticle 5432)) = none :=
  ⟨rfl, rfl, rfl⟩

/-- Claim C3: a numeric identifier beyond the store's integer range makes
the existence resolver signal the shaped out-of-range error, which the
first chain stage emits: the client receives 400 with the out-of-range
message on both the article and the comments-of-article reads. -/
theorem out_of_range_id_maps_to_400 (s : String) (n : Nat) (db : DB)
    (hp : strToNat s = some n) (hr : maxInt < n) :
    (getArticlesById s db).1 =
      .err 400 "Out of range for type integer - choose a smaller number" ∧
    (getCommentsByArticleId s db).1 =
      .err 400 "Out of range for type integer - choose a smaller number" := by
  have hparse : parseStoreInt s = .outOfRange := by
    simp [parseStoreInt, hp, hr]
  constructor
  · simp only [getArticlesById, fetchArticlesById, hparse]
    rfl
  · simp only [getCommentsByArticleId, fetchArticlesById, hparse]
    rfl

theorem out_of_range_id_maps_to_400_witness :
    (getArticlesById "9332879283" sampleDB).1 =
      .err 400 "Out of range for type integer - choose a smaller number" :=
  (out_of_range_id_maps_to_400 "9332879283" 9332879283 sampleDB rfl (by decide)).1

/-- Claim C4: the comments-of-article read resolves the parent article
first: a well-formed identifier matching no article answers 404 "Article
ID does not exist", and an existing article with no comments answers 200
with the empty sequence, never 404. -/
theorem comments_route_distinguishes_absent_from_empty (s : String) (n : Nat) (db : DB)
    (hp : strToNat s = some n) (hr : n ≤ maxInt) :
    ((∀ a ∈ db.articles, a.article_id ≠ n) →
      (getCommentsByArticleId s db).1 = .err 404 "Article ID does not exist") ∧
    ((∃ a ∈ db.articles, a.article_id = n) →
      (∀ c ∈ db.comments, c.article_id ≠ n) →
      (getCommentsByArticleId s db).1 = .okComments 200 []) := by
  have hparse : parseStoreInt s = .ok n := by
    simp [parseStoreInt, hp, Nat.not_lt.mpr hr]
  constructor
  · intro habs
    have hfind : db.articles.find? (fun a => a.article_id == n) = none := by
      rw [List.find?_eq_none]
      intro a ha
      simpa using habs a ha
    simp only [getCommentsByArticleId, fetchArticlesById, hparse, hfind]
    rfl
  · intro hex hempty
    obtain ⟨a, ha, han⟩ := hex
    have hsome : (db.articles.find? (fun a => a.article_id == n)).isSome := by
      rw [List.find?_isSome]
      exact ⟨a, ha, by simpa using han⟩
    obtain ⟨a₀, hfind⟩ := Option.isSome_iff_exists.mp hsome
    have hfilter : db.comments.filter (fun c => c.article_id == n) = [] := by
      rw [List.filter_eq_nil_iff]
      intro c hc
      simpa using hempty c hc
    simp only [getCommentsByArticleId, fetchArticlesById, fetchCommentsByArticleId,
      hparse, hfind, hfilter]
    rfl

theorem comments_route_distinguishes_absent_from_empty_witness :
    (getCommentsByArticleId "5667" sampleDB).1 = .err 404 "Article ID does not exist" ∧
    (getCommentsByArticleId "2" sampleDB).1 = .okComments 200 [] :=
  ⟨(comments_route_distinguishes_absent_from_empty "5667" 5667 sampleDB rfl
      (by decide)).1 (by decide),
   (comments_route_distinguishes_absent_from_empty "2" 2 sampleDB rfl
      (by decide)).2 ⟨articleTwo, by decide, rfl⟩ (by decide)⟩

/-- Claim C5: a non-numeric path identifier reaches the store, whose
invalid-text-representation failure (SQLSTATE 22P02) the chain maps to
the fixed pair 400 / "Invalid input"; the mapping holds for any
store-raised error carrying that code. -/
theorem invalid_text_id_maps_to_invalid_input (s : String) (db : DB)
    (hs : strToNat s = none) :
    (getArticlesById s db).1 = .err 400 "Invalid input" ∧
    (getCommentsByArticleId s db).1 = .err 400 "Invalid input" ∧
    ∀ e : ErrObj, e.code = some "22P02" → e.status = none → e.msg = none →
      runChain errorChain e = some (400, "Invalid input") := by
  have hparse : parseStoreInt s = .invalidText := by
    simp [parseStoreInt, hs]
  refine ⟨?_, ?_, ?_⟩
  · simp only [getArticlesById, fetchArticlesById, hparse]
    rfl
  · simp only [getCommentsByArticleId, fetchArticlesById, hparse]
    rfl
  · intro e hc hst hm
    simp [runChain, errorChain, customErrorMiddleware, handlePsqlErrorsMiddleware,
      truthyNat, truthyStr, hc, hst, hm]

theorem invalid_text_id_maps_to_invalid_input_witness :
    (getArticlesById "pineapple" sampleDB).1 = .err 400 "Invalid input" :=
  (invalid_text_id_maps_to_invalid_input "pineapple" sampleDB rfl).1

/-- Claim C6 counterexample: for the non-numeric identifier "pineapple"
the wired article read issues one store query (rather than failing fast
locally before any store access), and the 400 "Invalid input" answer is
produced post-hoc from the store's failure. -/
theorem invalid_id_still_queries_store :
    (getArticlesById "pineapple" sampleDB).2 = 1 ∧
    (getArticlesById "pineapple" sampleDB).1 = .err 400 "Invalid input" :=
  ⟨rfl, rfl⟩

/-- Claim C6 as amended: no local validator runs — every request with a
non-numeric identifier still issues exactly one store query, and the
client's 400 "Invalid input" comes from the store-error classifier
recognizing the store's invalid-text failure after the fact. -/
theorem invalid_id_classified_post_hoc (s : String) (db : DB)
    (hs : strToNat s = none) :
    (getArticlesById s db).2 = 1 ∧
    (getArticlesById s db).1 = .err 400 "Invalid input" := by
  have hparse : parseStoreInt s = .invalidText := by
    simp [parseStoreInt, hs]
  constructor <;> (simp only [getArticlesById, fetchArticlesById, hparse]; try rfl)

theorem invalid_id_classified_post_hoc_witness :
    (getArticlesById "banana" sampleDB).2 = 1 ∧
    (getArticlesById "banana" sampleDB).1 = .err 400 "Invalid input" :=
  invalid_id_classified_post_hoc "banana" sampleDB rfl

/-- Claim C7: a failure carrying an explicit (truthy) status and message
is emitted verbatim by the first stage of the chain; the chain consults
that stage before the store-error classifier (its order is exactly
`[customErrorMiddleware, handlePsqlErrorsMiddleware]`); and a failure the
first stage does not recognize is decided by the next stage. -/
theorem shaped_error_emitted_verbatim_first (e : ErrObj) (s : Nat) (m : String)
    (hst : e.status = some s) (hs0 : s ≠ 0) (hm : e.msg = some m) (hm0 : m ≠ "") :
    customErrorMiddleware e = some (s, m) ∧
    runChain errorChain e = some (s, m) ∧
    errorChain = [customErrorMiddleware, handlePsqlErrorsMiddleware] ∧
    (∀ e₂ : ErrObj, customErrorMiddleware e₂ = none →
      runChain errorChain e₂ = handlePsqlErrorsMiddleware e₂) := by
  have hcust : customErrorMiddleware e = some (s, m) := by
    simp [customErrorMiddleware, truthyNat, truthyStr, hst, hm, hs0, hm0]
  refine ⟨hcust, ?_, rfl, ?_⟩
  · simp [runChain, errorChain, hcust]
  · intro e₂ h₂
    cases hp : handlePsqlErrorsMiddleware e₂ <;>
      simp [runChain, errorChain, h₂, hp]

theorem shaped_error_emitted_verbatim_first_witness :
    runChain errorChain ⟨some 418, some "teapot", none, none⟩ = some (418, "teapot") :=
  (shaped_error_emitted_verbatim_first ⟨some 418, some "teapot", none, none⟩
    418 "teapot" rfl (by decide) rfl (by decide)).2.1

/-- Claim C8: a comment insertion whose author reference or body field is
missing (including an absent payload) answers 400 "Malformed
body/missing required fields", leaves the database unchanged, and issues
no store query. -/
theorem malformed_comment_body_fails_before_store (article_id : String)
    (rb : Option CommentReqBody) (db : DB)
    (h : reqUsername rb = none ∨ reqBodyField rb = none) :
    (postCommentByArticleId article_id rb db).1 =
      .err 400 "Malformed body/missing required fields" ∧
    (postCommentByArticleId article_id rb db).2.1 = db ∧
    (postCommentByArticleId article_id rb db).2.2 = 0 := by
  have hcond : ((reqBodyField rb).isNone || (reqUsername rb).isNone) = true := by
    rcases h with h | h <;> simp [h]
  refine ⟨?_, ?_, ?_⟩ <;>
    (simp only [postCommentByArticleId, insertCommentByArticleId, hcond, if_true];
      try rfl)

theorem malformed_comment_body_fails_before_store_witness :
    (postCommentByArticleId "5" (some ⟨none, none⟩) sampleDB).1 =
      .err 400 "Malformed body/missing required fields" ∧
    (postCommentByArticleId "5" (some ⟨none, none⟩) sampleDB).2.2 = 0 :=
  ⟨(malformed_comment_body_fails_before_store "5" (some ⟨none, none⟩) sampleDB
      (Or.inl rfl)).1,
   (malformed_comment_body_fails_before_store "5" (some ⟨none, none⟩) sampleDB
      (Or.inl rfl)).2.2⟩

/-- Claim C9: a requested sort column outside the fixed allow-list makes
the articles list answer 400 "Invalid sort by query"; any allowed column
succeeds with 200; and an absent sort/order pair behaves exactly as
`created_at` descending. -/
theorem sort_allow_list_enforced (topic sortBy order : Option String) (db : DB) :
    (∀ c, sortBy = some c → allowedSortBys.contains c = false →
      (getAllArticles topic sortBy order db).1 = .err 400 "Invalid sort by query") ∧
    (allowedSortBys.contains (sortBy.getD "created_at") = true →
      ∃ as, (getAllArticles topic sortBy order db).1 = .okArticles 200 as) ∧
    getAllArticles topic none none db =
      getAllArticles topic (some "created_at") (some "desc") db := by
  refine ⟨?_, ?_, rfl⟩
  · intro c hc hcc
    simp only [getAllArticles, fetchAllArticles, hc, Option.getD_some, hcc,
      Bool.not_false, if_true]
    rfl
  · intro hmem
    simp only [getAllArticles, fetchAllArticles, hmem, Bool.not_true, if_false]
    exact ⟨_, rfl⟩

theorem sort_allow_list_enforced_witness :
    (getAllArticles none (some "article_img_url") none sampleDB).1 =
      .err 400 "Invalid sort by query" ∧
    ∃ as, (getAllArticles none (some "author") none sampleDB).1 = .okArticles 200 as :=
  ⟨(sort_allow_list_enforced none (some "article_img_url") none sampleDB).1
      "article_img_url" rfl (by decide),
   (sort_allow_list_enforced none (some "author") none sampleDB).2.1 (by decide)⟩

/-- Claim C10: the first chain stage recognizes a failure only when both
`status` and `msg` are truthy — status 0, an empty message, or an absent
field all forward the failure to the store-error stage, which answers
only for code 22P02 and otherwise lets it fall through unhandled. -/
theorem stage_one_requires_truthiness (e : ErrObj) :
    ((e.status = some 0 ∨ e.msg = some "" ∨ e.status = none ∨ e.msg = none) →
      customErrorMiddleware e = none) ∧
    (customErrorMiddleware e = none → e.code ≠ some "22P02" →
      runChain errorChain e = none) ∧
    (customErrorMiddleware e = none → e.code = some "22P02" →
      runChain errorChain e = some (400, "Invalid input")) := by
  refine ⟨?_, ?_, ?_⟩
  · rintro (h | h | h | h) <;>
      simp [customErrorMiddleware, truthyNat, truthyStr, h]
  · intro hc hcode
    simp [runChain, errorChain, hc, handlePsqlErrorsMiddleware, hcode]
  · intro hc hcode
    simp [runChain, errorChain, hc, handlePsqlErrorsMiddleware, hcode]

theorem stage_one_requires_truthiness_witness :
    customErrorMiddleware ⟨some 0, some "boom", some "23503", none⟩ = none ∧
    runChain errorChain ⟨some 0, some "boom", some "23503", none⟩ = none :=
  ⟨(stage_one_requires_truthiness ⟨some 0, some "boom", some "23503", none⟩).1
      (Or.inl rfl),
   (stage_one_requires_truthiness ⟨some 0, some "boom", some "23503", none⟩).2.1
      ((stage_one_requires_truthiness ⟨some 0, some "boom", some "23503", none⟩).1
        (Or.inl rfl)) (by decide)⟩

end NcNews
